import Mathlib

/-!
Verification of `src/functions/data-processing-engines/dataproc-serverless-job-executor/main.py`
against its natural-language specification.

The Python function is shallowly embedded here:
  * JSON values / Python objects that flow through the handler are modelled by `Json`
    (Python `None` is `Json.null`; the decoded request body of an unparseable request is
    therefore `Json.null`, matching `request.get_json(silent=True)` returning `None`).
  * Raised Python exceptions are modelled by `PyError` (class name + message), and
    fallible code returns `Except PyError _`.
  * The external world consumed by one invocation (the `K_SERVICE` env var, the blob
    store, the wall clock, and the two possible outbound HTTP responses) is an explicit
    `Env` record passed to the embedded functions.
  * Machine-level details that no claim depends on are modelled at their observable
    granularity: the wall clock is an exact count of milliseconds (Python's
    `datetime.now().timestamp()` float is modelled as `nowMs / 1000`), and exception
    message texts coming from the Python runtime (e.g. `AttributeError`) are simplified
    to quote-free strings since no claim inspects those texts.
-/

/-- JSON values, doubling as the dynamic Python values the handler passes around.
NOTE: numbers are modelled as integers; no claim involves fractional JSON numbers. -/
inductive Json where
  | null
  | bool (b : Bool)
  | num (n : Int)
  | str (s : String)
  | arr (xs : List Json)
  | obj (kvs : List (String × Json))

/-- A raised Python exception: its class name and its message. -/
structure PyError where
  name : String
  msg : String

/-- Python truthiness (`if x:`) for the values of `Json`. -/
def pyTruthy : Json → Bool
  | .null => false
  | .bool b => b
  | .num n => n != 0
  | .str s => !s.data.isEmpty
  | .arr xs => !xs.isEmpty
  | .obj kvs => !kvs.isEmpty

/-- Python type names, used in `AttributeError` messages. -/
def pyTypeName : Json → String
  | .null => "NoneType"
  | .bool _ => "bool"
  | .num _ => "int"
  | .str _ => "str"
  | .arr _ => "list"
  | .obj _ => "dict"

mutual
/-- Python `repr()` of a `Json` value (string arguments are quoted with `\x27`).
Only ever applied by `pyStr` to containers; no claim exercises it. -/
def pyReprVal : Json → String
  | .null => "None"
  | .bool true => "True"
  | .bool false => "False"
  | .num n => toString n
  | .str s => "\x27" ++ s ++ "\x27"
  | .arr xs => "[" ++ pyReprItems xs ++ "]"
  | .obj kvs => "\x7b" ++ pyReprMembers kvs ++ "\x7d"

/-- Comma-separated reprs of list items. -/
def pyReprItems : List Json → String
  | [] => ""
  | [x] => pyReprVal x
  | x :: y :: rest => pyReprVal x ++ ", " ++ pyReprItems (y :: rest)

/-- Comma-separated reprs of dict members. -/
def pyReprMembers : List (String × Json) → String
  | [] => ""
  | [(k, v)] => "\x27" ++ k ++ "\x27: " ++ pyReprVal v
  | (k, v) :: y :: rest => "\x27" ++ k ++ "\x27: " ++ pyReprVal v ++ ", " ++ pyReprMembers (y :: rest)
end

/-- Python `str()`, as applied inside the source's f-strings. -/
def pyStr : Json → String
  | .null => "None"
  | .bool true => "True"
  | .bool false => "False"
  | .num n => toString n
  | .str s => s
  | j => pyReprVal j

/-- Python `repr()` of an exception object, as used by the top-level handler
(`repr(error)`). The argument is rendered in quotes; the modelled messages
contain no quote characters themselves. -/
def pyExcRepr (e : PyError) : String := e.name ++ "(\x27" ++ e.msg ++ "\x27)"

/-- The `AttributeError` raised by Python when `.get` is called on a non-dict
(message text simplified; no claim inspects it). -/
def noGetError (t : String) : PyError :=
  ⟨"AttributeError", t ++ " object has no attribute get"⟩

/-- Embedding of `value.get(key, default)`: succeeds exactly on dicts,
raises `AttributeError` otherwise (e.g. on `None`). -/
def dictGet (v : Json) (key : String) (dflt : Json) : Except PyError Json :=
  match v with
  | .obj kvs => .ok ((List.lookup key kvs).getD dflt)
  | other => .error (noGetError (pyTypeName other))

/-- Embedding of `value.startswith(pre)`: works on strings, raises
`AttributeError` otherwise. -/
def pyStartswith (v : Json) (pre : String) : Except PyError Bool :=
  match v with
  | .str s => .ok (pre.data.isPrefixOf s.data)
  | other => .error (noGetError (pyTypeName other))

/-! ### Python string primitives used by `extract_params`
`str.replace` (replace every non-overlapping occurrence, scanning left to right),
`str.split` on a one-character separator, and `sep.join`, modelled on `List Char`. -/

/-- Worker for `pyReplace`; `fuel` only makes the recursion structural and is always
called with `fuel ≥ s.length`, which the scan never exhausts. -/
def pyReplaceAux (pat rep : List Char) : Nat → List Char → List Char
  | _, [] => []
  | 0, s => s
  | fuel + 1, c :: rest =>
    if pat ≠ [] ∧ pat.isPrefixOf (c :: rest) then
      rep ++ pyReplaceAux pat rep fuel ((c :: rest).drop pat.length)
    else
      c :: pyReplaceAux pat rep fuel rest

/-- Python `s.replace(pat, rep)` for a non-empty `pat` (the source only ever uses
the pattern "gs://"). -/
def pyReplace (s pat rep : List Char) : List Char := pyReplaceAux pat rep s.length s

/-- Python `s.split(sep)` for a one-character separator. -/
def listSplit (sep : Char) : List Char → List (List Char)
  | [] => [[]]
  | c :: rest =>
    match listSplit sep rest with
    | [] => [[]]
    | cur :: rs => if c = sep then [] :: cur :: rs else (c :: cur) :: rs

/-- Python `sep.join(parts)` for a one-character separator. -/
def listJoin (sep : Char) : List (List Char) → List Char
  | [] => []
  | [x] => x
  | x :: y :: rs => x ++ sep :: listJoin sep (y :: rs)

/-- `containsSeq pat s` holds iff `pat` occurs as a contiguous run inside `s`. -/
def containsSeq (pat : List Char) : List Char → Bool
  | [] => pat.isEmpty
  | c :: rest => pat.isPrefixOf (c :: rest) || containsSeq pat rest

/-! ### A JSON parser for `json.loads`
Executable model of the standard-library parser, on the integer/basic-escape
subset that the job definitions use (no floats, no unicode escapes; inputs
using those simply fail to parse). -/

/-- Skip JSON whitespace. -/
def skipWs : List Char → List Char
  | [] => []
  | c :: rest =>
    if c = ' ' ∨ c = '\n' ∨ c = '\t' ∨ c = '\r' then skipWs rest else c :: rest

/-- Longest digit run at the head of the input. -/
def takeDigits : List Char → List Char × List Char
  | [] => ([], [])
  | c :: rest =>
    if c.isDigit then
      let (ds, r) := takeDigits rest
      (c :: ds, r)
    else ([], c :: rest)

/-- Decimal value of a digit run. -/
def digitsToNat (ds : List Char) : Nat :=
  ds.foldl (fun acc c => acc * 10 + (c.toNat - '0'.toNat)) 0

/-- Body of a JSON string after its opening quote: returns the decoded content and
the input remaining after the closing quote. -/
def parseStringRest : List Char → Option (List Char × List Char)
  | [] => none
  | '"' :: rest => some ([], rest)
  | '\\' :: e :: rest =>
    let esc : Option Char :=
      if e = '"' then some '"'
      else if e = '\\' then some '\\'
      else if e = '/' then some '/'
      else if e = 'n' then some '\n'
      else if e = 't' then some '\t'
      else if e = 'r' then some '\r'
      else if e = 'b' then some (Char.ofNat 8)
      else if e = 'f' then some (Char.ofNat 12)
      else none
    match esc with
    | none => none
    | some ch =>
      match parseStringRest rest with
      | some (s, r) => some (ch :: s, r)
      | none => none
  | c :: rest =>
    match parseStringRest rest with
    | some (s, r) => some (c :: s, r)
    | none => none

/-- `dict[k] = v` on an insertion-ordered association list: Python keeps the first
position of `k` but overwrites its value; duplicate object keys keep the last value. -/
def objInsert (kvs : List (String × Json)) (k : String) (v : Json) : List (String × Json) :=
  if kvs.any (fun kv => kv.1 == k) then
    kvs.map (fun kv => if kv.1 == k then (k, v) else kv)
  else kvs ++ [(k, v)]

/-- Parser mode: a single value, the items of an array, or the members of an object. -/
inductive PMode where
  | value
  | arrItems (acc : List Json)
  | objMembers (acc : List (String × Json))

/-- Recursive-descent JSON parser. `fuel` makes the recursion structural; callers
pass enough for any input they parse. -/
def parseF : Nat → PMode → List Char → Option (Json × List Char)
  | 0, _, _ => none
  | fuel + 1, .value, s =>
    match skipWs s with
    | [] => none
    | c :: rest =>
      if c = 'n' then
        if "ull".data.isPrefixOf rest then some (.null, rest.drop 3) else none
      else if c = 't' then
        if "rue".data.isPrefixOf rest then some (.bool true, rest.drop 3) else none
      else if c = 'f' then
        if "alse".data.isPrefixOf rest then some (.bool false, rest.drop 4) else none
      else if c = '"' then
        match parseStringRest rest with
        | some (content, r) => some (.str (String.mk content), r)
        | none => none
      else if c = '-' then
        match takeDigits rest with
        | ([], _) => none
        | (ds, r) => some (.num (-(digitsToNat ds : Int)), r)
      else if c.isDigit then
        let (ds, r) := takeDigits (c :: rest)
        some (.num (digitsToNat ds), r)
      else if c = '\x7b' then
        match skipWs rest with
        | '\x7d' :: r => some (.obj [], r)
        | _ => parseF fuel (.objMembers []) rest
      else if c = '[' then
        match skipWs rest with
        | ']' :: r => some (.arr [], r)
        | _ => parseF fuel (.arrItems []) rest
      else none
  | fuel + 1, .arrItems acc, s =>
    match parseF fuel .value s with
    | none => none
    | some (v, r) =>
      match skipWs r with
      | ']' :: r2 => some (.arr (acc ++ [v]), r2)
      | ',' :: r2 => parseF fuel (.arrItems (acc ++ [v])) r2
      | _ => none
  | fuel + 1, .objMembers acc, s =>
    match skipWs s with
    | '"' :: rest =>
      match parseStringRest rest with
      | none => none
      | some (key, r) =>
        match skipWs r with
        | ':' :: r2 =>
          match parseF fuel .value r2 with
          | none => none
          | some (v, r3) =>
            match skipWs r3 with
            | '\x7d' :: r4 => some (.obj (objInsert acc (String.mk key) v), r4)
            | ',' :: r4 => parseF fuel (.objMembers (objInsert acc (String.mk key) v)) r4
            | _ => none
        | _ => none
    | _ => none

/-- The `json.decoder.JSONDecodeError` raised by `json.loads` (message simplified;
no claim inspects it). -/
def jsonDecodeError : PyError := ⟨"JSONDecodeError", "Expecting value"⟩

/-- Embedding of `json.loads`. -/
def json_loads (s : String) : Except PyError Json :=
  match parseF (2 * s.data.length + 2) .value s.data with
  | some (v, rest) => if (skipWs rest).isEmpty then .ok v else .error jsonDecodeError
  | none => .error jsonDecodeError

/-! ### The external world of one invocation -/

/-- Result of `blob.download_as_bytes()` followed by `.decode(encoding)`:
the object is missing, the bytes do not decode, or they decode to a string. -/
inductive BlobFetch where
  | notFound
  | decodeError
  | content (data : String)

/-- One HTTP response from the Dataproc REST API: status code, raw body text,
and the body as JSON (`response.json()`). -/
structure HttpResponse where
  status : Nat
  text : String
  body : Json

/-- The ambient world of one invocation: the `K_SERVICE` function name (a string,
or `None` when unset), the blob store keyed by bucket and object name, the wall
clock in milliseconds (`datetime.now().timestamp()` is `nowMs / 1000` seconds),
and the responses the POST (creation) and GET (status) calls would receive. -/
structure Env where
  functionName : Json
  blob : String → String → BlobFetch
  nowMs : Nat
  postResponse : HttpResponse
  getResponse : HttpResponse

/-! ### `extract_params` (main.py lines 90-114) -/

/-- The characters of `"gs://"`. -/
def gsScheme : List Char := "gs://".data

/-- The characters of `".json"`. -/
def jsonDotSfx : List Char := ".json".data

/-- The bucket/object pair that `extract_params` actually reads, from
`json_file_path = f"gs://{bucket_name}/{function_name}/{job_name}.json"`,
`parts = json_file_path.replace("gs://", "").split("/")`,
`bucket_name = parts[0]`, `object_name = "/".join(parts[1:])`.
(`split` never returns an empty list, so `parts[0]` cannot fault; the `headD`
default is dead.) -/
def extract_params_target (bucket_name job_name function_name : String) : String × String :=
  let json_file_path : List Char :=
    gsScheme ++ bucket_name.data ++ '/' :: function_name.data ++ '/' :: job_name.data ++ jsonDotSfx
  let parts := listSplit '/' (pyReplace json_file_path gsScheme [])
  (String.mk (parts.headD []), String.mk (listJoin '/' parts.tail))

/-- `extract_params`: read and parse the parameters blob; on `NotFound`,
`UnicodeDecodeError` or `JSONDecodeError` the error is swallowed and the function
returns `None` (`Json.null`). The f-string applies `str()` to its arguments. -/
def extract_params (blob : String → String → BlobFetch)
    (bucket_name job_name function_name : Json) : Json :=
  let target := extract_params_target (pyStr bucket_name) (pyStr job_name) (pyStr function_name)
  match blob target.1 target.2 with
  | .notFound => Json.null
  | .decodeError => Json.null
  | .content data =>
    match json_loads data with
    | .ok params => params
    | .error _ => Json.null

/-! ### `create_batch_job` (main.py lines 117-190) -/

/-- Python `int(round(nowMs / 1000))`: round to the nearest second, ties to even. -/
def pyTimestamp (nowMs : Nat) : Nat :=
  let q := nowMs / 1000
  let r := nowMs % 1000
  if r < 500 then q
  else if 500 < r then q + 1
  else if q % 2 = 0 then q else q + 1

/-- `batch_id = f"aef-{timestamp}"`. -/
def batchIdOf (nowMs : Nat) : String := "aef-" ++ toString (pyTimestamp nowMs)

/-- The message of the exception raised on a non-200 POST:
`f"Dataproc API CREATE request failed. Status code:{response.status_code}"`.
The response body is printed but not part of the message. -/
def createFailMsg (status : Nat) : String :=
  "Dataproc API CREATE request failed. Status code:" ++ toString status

/-- The message of the exception raised on a non-200 GET. -/
def getFailMsg (status : Nat) : String :=
  "Dataproc API GET request failed. Status code:" ++ toString status

/-- The `params` REST payload dict built by `create_batch_job` (lines 147-172),
including the conditional `peripherals_config` insertion. -/
def batch_payload (dataproc_serverless_project_id dataproc_serverless_region
    jar_file_location spark_history_server_cluster spark_app_main_class spark_args
    dataproc_serverless_runtime_version dataproc_service_account spark_app_properties
    subnetwork : Json) : Json :=
  Json.obj [
    ("spark_batch", Json.obj [
      ("jar_file_uris", Json.arr [jar_file_location]),
      ("main_class", spark_app_main_class),
      ("args", spark_args)]),
    ("runtime_config", Json.obj [
      ("version", dataproc_serverless_runtime_version),
      ("properties", spark_app_properties)]),
    ("environment_config", Json.obj (
      ("execution_config", Json.obj [
        ("service_account", dataproc_service_account),
        ("subnetwork_uri", Json.str ("projects/" ++ pyStr dataproc_serverless_project_id
          ++ "/" ++ pyStr subnetwork))]) ::
      (if pyTruthy spark_history_server_cluster then
        [("peripherals_config", Json.obj [
          ("spark_history_server_config", Json.obj [
            ("dataproc_cluster", Json.str ("projects/" ++ pyStr dataproc_serverless_project_id
              ++ "/regions/" ++ pyStr dataproc_serverless_region
              ++ "/clusters/" ++ pyStr spark_history_server_cluster))])])]
      else [])))]

/-- Lines 127-172 of `create_batch_job`: the ten `extracted_params.get(...)` reads
(each can raise `AttributeError` when the params value is not a dict, e.g. `None`),
the `isinstance(spark_app_properties, str)` re-parse, and the payload construction. -/
def create_batch_params (extracted_params : Json) : Except PyError Json :=
  match dictGet extracted_params "dataproc_serverless_project_id" Json.null with
  | .error e => .error e
  | .ok dataproc_serverless_project_id =>
  match dictGet extracted_params "dataproc_serverless_region" Json.null with
  | .error e => .error e
  | .ok dataproc_serverless_region =>
  match dictGet extracted_params "jar_file_location" Json.null with
  | .error e => .error e
  | .ok jar_file_location =>
  match dictGet extracted_params "spark_history_server_cluster" Json.null with
  | .error e => .error e
  | .ok spark_history_server_cluster =>
  match dictGet extracted_params "spark_app_main_class" Json.null with
  | .error e => .error e
  | .ok spark_app_main_class =>
  match dictGet extracted_params "spark_args" Json.null with
  | .error e => .error e
  | .ok spark_args =>
  match dictGet extracted_params "dataproc_serverless_runtime_version" Json.null with
  | .error e => .error e
  | .ok dataproc_serverless_runtime_version =>
  match dictGet extracted_params "dataproc_service_account" Json.null with
  | .error e => .error e
  | .ok dataproc_service_account =>
  match dictGet extracted_params "spark_app_properties" Json.null with
  | .error e => .error e
  | .ok spark_app_properties0 =>
  match dictGet extracted_params "subnetwork" Json.null with
  | .error e => .error e
  | .ok subnetwork =>
  match (match spark_app_properties0 with
         | Json.str s => json_loads s
         | v => Except.ok v) with
  | .error e => .error e
  | .ok spark_app_properties =>
    Except.ok (batch_payload dataproc_serverless_project_id dataproc_serverless_region
      jar_file_location spark_history_server_cluster spark_app_main_class spark_args
      dataproc_serverless_runtime_version dataproc_service_account spark_app_properties
      subnetwork)

/-- `create_batch_job`: build the payload, derive `batch_id` from the clock,
POST, and return the batch id on HTTP 200 or raise `Exception(error_message)`
otherwise. (The token refresh and the prints are unobservable here.) -/
def create_batch_job (env : Env) (workflow_name job_name query_variables
    workflow_properties extracted_params : Json) : Except PyError Json :=
  match create_batch_params extracted_params with
  | .error e => .error e
  | .ok _params =>
    let batch_id := batchIdOf env.nowMs
    if env.postResponse.status == 200 then
      .ok (.str batch_id)
    else
      .error ⟨"Exception", createFailMsg env.postResponse.status⟩

/-! ### `get_job_status` (main.py lines 193-222) -/

/-- `get_job_status`: two `extracted_params.get(...)` reads, a GET, and on HTTP 200
`response.json().get("state")`; otherwise raise `Exception(error_message)`. -/
def get_job_status (env : Env) (job_id extracted_params : Json) : Except PyError Json :=
  match dictGet extracted_params "dataproc_serverless_project_id" Json.null with
  | .error e => .error e
  | .ok _dataproc_serverless_project_id =>
  match dictGet extracted_params "dataproc_serverless_region" Json.null with
  | .error e => .error e
  | .ok _dataproc_serverless_region =>
    if env.getResponse.status == 200 then
      dictGet env.getResponse.body "state" Json.null
    else
      .error ⟨"Exception", getFailMsg env.getResponse.status⟩

/-! ### Dispatch and the top-level handler (main.py lines 33-87) -/

/-- `execute_job_or_get_status`: `if job_id:` is Python truthiness. -/
def execute_job_or_get_status (env : Env) (job_id workflow_name job_name query_variables
    workflow_properties extracted_params : Json) : Except PyError Json :=
  if pyTruthy job_id then
    get_job_status env job_id extracted_params
  else
    create_batch_job env workflow_name job_name query_variables workflow_properties
      extracted_params

/-- The body of `main`'s `try:` block (lines 49-72): the five field reads, the
bucket lookup, the optional `extract_params` call, dispatch, and the
`status_or_job_id.startswith('aef-')` logging test (which can itself raise). -/
def main_try (env : Env) (request_json : Json) : Except PyError Json :=
  match dictGet request_json "workflow_properties" Json.null with
  | .error e => .error e
  | .ok workflow_properties =>
  match dictGet request_json "workflow_name" Json.null with
  | .error e => .error e
  | .ok workflow_name =>
  match dictGet request_json "job_name" Json.null with
  | .error e => .error e
  | .ok job_name =>
  match dictGet request_json "query_variables" Json.null with
  | .error e => .error e
  | .ok query_variables =>
  match dictGet request_json "job_id" Json.null with
  | .error e => .error e
  | .ok job_id =>
  match dictGet request_json "workflow_properties" (Json.obj []) with
  | .error e => .error e
  | .ok wprops2 =>
  match dictGet wprops2 "jobs_definitions_bucket" Json.null with
  | .error e => .error e
  | .ok jobs_definitions_bucket =>
  let extracted_params :=
    if pyTruthy jobs_definitions_bucket then
      extract_params env.blob jobs_definitions_bucket job_name env.functionName
    else Json.obj []
  match execute_job_or_get_status env job_id workflow_name job_name query_variables
      workflow_properties extracted_params with
  | .error e => .error e
  | .ok status_or_job_id =>
  match pyStartswith status_or_job_id "aef-" with
  | .error e => .error e
  | .ok _ => .ok status_or_job_id

/-- What `main` hands back to the framework: the returned value on success, or the
structured error dict from the `except` clause. -/
inductive HandlerResult where
  | success (v : Json)
  | errObj (error : String) (message : String)

/-- `main` (lines 33-80): run the `try:` body; any exception becomes
`{"error": error.__class__.__name__, "message": repr(error)}`. -/
def main_handler (env : Env) (request_json : Json) : HandlerResult :=
  match main_try env request_json with
  | .ok v => .success v
  | .error e => .errObj e.name (pyExcRepr e)

/-! ### Observation helpers used by the theorems -/

/-- Key lookup on a JSON object (`none` on non-objects and missing keys). -/
def jsonLookup (j : Json) (k : String) : Option Json :=
  match j with
  | .obj kvs => List.lookup k kvs
  | _ => none

/-- Two-level lookup. -/
def jsonLookup2 (j : Json) (k1 k2 : String) : Option Json :=
  match jsonLookup j k1 with
  | some x => jsonLookup x k2
  | none => none

/-- Four-level lookup. -/
def jsonLookup4 (j : Json) (k1 k2 k3 k4 : String) : Option Json :=
  match jsonLookup2 j k1 k2 with
  | some x => jsonLookup2 x k3 k4
  | none => none

/-- Every character of `s` is a decimal digit. -/
def allDigits (s : String) : Bool := s.data.all Char.isDigit


/-! ### Helper lemmas on the string primitives -/

theorem isPrefixOf_append_self (l t : List Char) : l.isPrefixOf (l ++ t) = true := by
  induction l with
  | nil => simp
  | cons c cs ih => simp [List.isPrefixOf, ih]

theorem drop_append_self (l r : List Char) : (l ++ r).drop l.length = r := by
  induction l with
  | nil => rfl
  | cons c cs ih => simpa using ih

/-- A scan that finds no occurrence leaves the input unchanged. -/
theorem pyReplaceAux_no_occurrence (pat rep : List Char) :
    ∀ (fuel : Nat) (s : List Char), s.length ≤ fuel →
      containsSeq pat s = false → pyReplaceAux pat rep fuel s = s := by
  intro fuel
  induction fuel with
  | zero =>
    intro s hlen _
    have : s = [] := List.eq_nil_of_length_eq_zero (Nat.le_zero.mp hlen)
    subst this; rfl
  | succ n ih =>
    intro s hlen hocc
    cases s with
    | nil => rfl
    | cons c rest =>
      have hocc' := hocc
      simp only [containsSeq, Bool.or_eq_false_iff] at hocc'
      obtain ⟨hpre, hrest⟩ := hocc'
      have hguard : ¬(pat ≠ [] ∧ pat.isPrefixOf (c :: rest) = true) := by
        intro ⟨_, h2⟩
        rw [hpre] at h2
        exact Bool.false_ne_true h2
      simp only [pyReplaceAux]
      rw [if_neg (by simpa using hguard)]
      have hlen' : rest.length ≤ n := Nat.le_of_succ_le_succ (by simpa using hlen)
      rw [ih rest hlen' hrest]

/-- Stripping a leading pattern occurrence when the remainder holds no further one. -/
theorem pyReplace_strip (pat rest : List Char) (hne : pat ≠ [])
    (hocc : containsSeq pat rest = false) :
    pyReplace (pat ++ rest) pat [] = rest := by
  cases pat with
  | nil => exact absurd rfl hne
  | cons p ps =>
    show pyReplaceAux (p :: ps) [] ((p :: ps) ++ rest).length ((p :: ps) ++ rest) = rest
    have hlen : ((p :: ps) ++ rest).length = ((ps ++ rest).length) + 1 := by
      simp [List.length_append]
    rw [hlen]
    show (if (p :: ps) ≠ [] ∧ (p :: ps).isPrefixOf (p :: (ps ++ rest)) = true then
        [] ++ pyReplaceAux (p :: ps) [] (ps ++ rest).length
          ((p :: (ps ++ rest)).drop (p :: ps).length)
      else p :: pyReplaceAux (p :: ps) [] (ps ++ rest).length (ps ++ rest)) = rest
    rw [if_pos ⟨by simp, by simpa using isPrefixOf_append_self (p :: ps) rest⟩]
    have hdrop : (p :: (ps ++ rest)).drop (p :: ps).length = rest :=
      drop_append_self (p :: ps) rest
    rw [hdrop, List.nil_append]
    exact pyReplaceAux_no_occurrence (p :: ps) [] (ps ++ rest).length rest
      (by simp [List.length_append]) hocc

theorem listSplit_ne_nil (sep : Char) (s : List Char) : listSplit sep s ≠ [] := by
  cases s with
  | nil => simp [listSplit]
  | cons c rest =>
    simp only [listSplit]
    cases h : listSplit sep rest with
    | nil => simp
    | cons cur rs =>
      by_cases hc : c = sep <;> simp [hc]

/-- Splitting a string whose head segment holds no separator. -/
theorem listSplit_append (sep : Char) (a b : List Char) (ha : sep ∉ a) :
    listSplit sep (a ++ sep :: b) = a :: listSplit sep b := by
  induction a with
  | nil =>
    simp only [List.nil_append, listSplit]
    cases h : listSplit sep b with
    | nil => exact absurd h (listSplit_ne_nil sep b)
    | cons cur rs => simp
  | cons c a' ih =>
    have hc : c ≠ sep := fun h => ha (h ▸ List.mem_cons_self c a')
    have ha' : sep ∉ a' := fun h => ha (List.mem_cons_of_mem c h)
    simp only [List.cons_append, listSplit, List.append_eq]
    rw [ih ha']
    simp [hc]

/-- Joining the split recovers the input. -/
theorem listJoin_listSplit (sep : Char) (s : List Char) :
    listJoin sep (listSplit sep s) = s := by
  induction s with
  | nil => rfl
  | cons c rest ih =>
    cases h : listSplit sep rest with
    | nil => exact absurd h (listSplit_ne_nil sep rest)
    | cons cur rs =>
      rw [h] at ih
      simp only [listSplit, h]
      by_cases hc : c = sep
      · subst hc
        simp only [if_pos rfl, listJoin]
        exact congrArg (c :: ·) ih
      · rw [if_neg hc]
        cases rs with
        | nil =>
          simp only [listJoin] at ih ⊢
          exact congrArg (c :: ·) ih
        | cons r rs' =>
          simp only [listJoin, List.cons_append] at ih ⊢
          exact congrArg (c :: ·) ih

/-- A pattern glued at the end is always found. -/
theorem containsSeq_append_self (pat a : List Char) :
    containsSeq pat (a ++ pat) = true := by
  induction a with
  | nil =>
    cases pat with
    | nil => rfl
    | cons p ps =>
      simp only [List.nil_append, containsSeq]
      have := isPrefixOf_append_self (p :: ps) []
      rw [List.append_nil] at this
      simp [this]
  | cons c a' ih =>
    simp only [List.cons_append, containsSeq, List.append_eq, ih, Bool.or_true]

theorem string_data_append (a b : String) : (a ++ b).data = a.data ++ b.data := by
  cases a; cases b; rfl

/-! ### Decimal digits of `toString (n : Nat)` -/

theorem digitChar_isDigit (m : Nat) (h : m < 10) : (Nat.digitChar m).isDigit = true := by
  interval_cases m <;> decide

theorem toDigitsCore_all_digits (fuel : Nat) :
    ∀ (n : Nat) (ds : List Char), (∀ c ∈ ds, c.isDigit = true) →
      ∀ c ∈ Nat.toDigitsCore 10 fuel n ds, c.isDigit = true := by
  induction fuel with
  | zero => intro n ds hds; simpa [Nat.toDigitsCore] using hds
  | succ fuel ih =>
    intro n ds hds
    have hd : (Nat.digitChar (n % 10)).isDigit = true :=
      digitChar_isDigit _ (Nat.mod_lt _ (by decide))
    have hds' : ∀ c ∈ Nat.digitChar (n % 10) :: ds, c.isDigit = true := by
      intro c hc
      rcases List.mem_cons.mp hc with h | h
      · exact h ▸ hd
      · exact hds c h
    simp only [Nat.toDigitsCore]
    by_cases hz : n / 10 = 0
    · rw [if_pos hz]; exact hds'
    · rw [if_neg hz]; exact ih (n / 10) _ hds'

theorem allDigits_toString (n : Nat) : allDigits (toString n) = true := by
  show allDigits (Nat.repr n) = true
  unfold Nat.repr
  have h := toDigitsCore_all_digits (n + 1) n [] (by intro c hc; cases hc)
  simp only [allDigits, Nat.toDigits, List.asString]
  exact List.all_eq_true.mpr (fun c hc => h c hc)

/-! ### Claim C1 -/

/-- Claim C1 (refuted by the code; the code contradicts `extract_params`' own
docstring): for a creation request whose parameter fetch fails (here: object not
found), the spec says parameters resolve as absent and job creation still
proceeds. In fact `extract_params` returns `None`, the first
`extracted_params.get(...)` inside `create_batch_job` raises `AttributeError`,
and the handler returns the structured error object instead of creating the job
— even though the POST would have returned HTTP 200. -/
theorem C1_fetch_failure_aborts_creation :
    main_handler ⟨Json.str "fn", (fun _ _ => BlobFetch.notFound), 0,
        ⟨200, "", Json.null⟩, ⟨200, "", Json.null⟩⟩
      (Json.obj [("job_name", Json.str "j"),
                 ("workflow_properties", Json.obj [("jobs_definitions_bucket", Json.str "b")])]) =
    HandlerResult.errObj "AttributeError" (pyExcRepr (noGetError "NoneType")) := rfl

/-! ### Claim C9 -/

/-- Claim C9 (confirmed): a request whose `job_id` field is present but equal to
the empty string takes the job-creation path, not the status-lookup path,
because `if job_id:` tests truthiness and `""` is falsy. -/
theorem C9_empty_job_id_creates :
    pyTruthy (Json.str "") = false ∧
    ∀ (env : Env) (wn jn qv wp ex : Json),
      execute_job_or_get_status env (Json.str "") wn jn qv wp ex =
        create_batch_job env wn jn qv wp ex :=
  ⟨rfl, fun _ _ _ _ _ _ => rfl⟩

/-! ### Claim C10 -/

/-- Claim C10 (confirmed): when the request body is missing or unparseable,
`request.get_json(silent=True)` yields `None` (modelled `Json.null`); the first
field access `request_json.get(...)` then raises `AttributeError` inside the
`try:` block, and the handler returns the structured error object whose `error`
field is the exception class name — it does not crash. -/
theorem C10_unparseable_body_yields_error_object (env : Env) :
    main_handler env Json.null =
      HandlerResult.errObj "AttributeError" (pyExcRepr (noGetError "NoneType")) := rfl

/-! ### Claim C2 -/

/-- Claim C2, counterexample: on a non-200 response the code raises a plain
`Exception` — not a dedicated `JobSubmissionError`/`JobStatusError` — and its
message carries only the status code; the raw response body text ("boom",
"kaput") appears nowhere in the message, contrary to the claim. -/
theorem C2_counterexample :
    create_batch_job ⟨Json.null, (fun _ _ => BlobFetch.notFound), 0,
        ⟨404, "boom", Json.null⟩, ⟨500, "kaput", Json.null⟩⟩
      Json.null Json.null Json.null Json.null (Json.obj []) =
      Except.error ⟨"Exception", "Dataproc API CREATE request failed. Status code:404"⟩ ∧
    get_job_status ⟨Json.null, (fun _ _ => BlobFetch.notFound), 0,
        ⟨404, "boom", Json.null⟩, ⟨500, "kaput", Json.null⟩⟩
      Json.null (Json.obj []) =
      Except.error ⟨"Exception", "Dataproc API GET request failed. Status code:500"⟩ ∧
    "Exception" ≠ "JobSubmissionError" ∧
    "Exception" ≠ "JobStatusError" ∧
    containsSeq "boom".data "Dataproc API CREATE request failed. Status code:404".data = false ∧
    containsSeq "kaput".data "Dataproc API GET request failed. Status code:500".data = false :=
  ⟨rfl, rfl, by decide, by decide, by decide, by decide⟩

/-! ### Claim C4 -/

/-- Claim C4, counterexample: the batch id uses `int(round(timestamp))`, which
rounds to the *nearest* second. Two calls at 10.4s and 10.6s lie in the same
wall-clock second (both floor to 10) yet produce the distinct ids "aef-10" and
"aef-11", so ids neither always equal "aef-" + the unix second of the call nor
always collide within one wall-clock second. -/
theorem C4_counterexample :
    (10400 / 1000 : Nat) = 10600 / 1000 ∧
    pyTimestamp 10400 = 10 ∧
    pyTimestamp 10600 = 11 ∧
    batchIdOf 10400 ≠ batchIdOf 10600 ∧
    create_batch_job ⟨Json.null, (fun _ _ => BlobFetch.notFound), 10400,
        ⟨200, "", Json.null⟩, ⟨200, "", Json.null⟩⟩
      Json.null Json.null Json.null Json.null (Json.obj []) =
      Except.ok (Json.str "aef-10") ∧
    create_batch_job ⟨Json.null, (fun _ _ => BlobFetch.notFound), 10600,
        ⟨200, "", Json.null⟩, ⟨200, "", Json.null⟩⟩
      Json.null Json.null Json.null Json.null (Json.obj []) =
      Except.ok (Json.str "aef-11") :=
  ⟨rfl, rfl, rfl, by decide, rfl, rfl⟩

/-! ### Claim C7 -/

/-- Claim C7, counterexample: a request in which `job_id` is *present* but empty
is dispatched to job creation (the handler returns a fresh "aef-…" batch id),
not to status lookup (which would have returned the remote state "RUNNING"),
because the branch tests truthiness rather than presence. -/
theorem C7_counterexample :
    main_handler ⟨Json.null, (fun _ _ => BlobFetch.notFound), 0,
        ⟨200, "", Json.null⟩, ⟨200, "", Json.obj [("state", Json.str "RUNNING")]⟩⟩
      (Json.obj [("job_id", Json.str "")]) = HandlerResult.success (Json.str "aef-0") ∧
    get_job_status ⟨Json.null, (fun _ _ => BlobFetch.notFound), 0,
        ⟨200, "", Json.null⟩, ⟨200, "", Json.obj [("state", Json.str "RUNNING")]⟩⟩
      (Json.str "") (Json.obj []) = Except.ok (Json.str "RUNNING") ∧
    "aef-0" ≠ "RUNNING" :=
  ⟨rfl, rfl, by decide⟩

/-! ### Claim C8 -/

/-- Claim C8, counterexample: `json_file_path.replace("gs://", "")` removes
*every* occurrence of "gs://", not just the leading scheme. With bucket "b",
function name "xgs://y" and job name "j" the loader reads object "xy/j.json"
instead of the claimed "xgs://y/j.json". -/
theorem C8_counterexample :
    extract_params_target "b" "j" "xgs://y" = ("b", "xy/j.json") ∧
    "xy/j.json" ≠ "xgs://y/j.json" :=
  ⟨rfl, by decide⟩

/-- Claim C8 as amended (the counterexample forces the extra hypothesis): for
every bucket name containing no slash, and function/job names such that
`<bucket>/<function_name>/<job_name>.json` contains no occurrence of "gs://",
the loader reads exactly bucket = the given bucket and object key =
`<function_name>/<job_name>.json`. -/
theorem C8_amended (bucket function_name job_name : String)
    (h1 : '/' ∉ bucket.data)
    (h2 : containsSeq gsScheme
      (bucket.data ++ ('/' :: (function_name.data ++ ('/' :: (job_name.data ++ jsonDotSfx)))))
      = false) :
    extract_params_target bucket job_name function_name =
      (bucket, function_name ++ "/" ++ job_name ++ ".json") := by
  simp only [extract_params_target]
  simp only [List.cons_append, List.append_assoc]
  rw [pyReplace_strip gsScheme _ (by decide) h2]
  rw [listSplit_append '/' bucket.data _ h1]
  simp only [List.headD_cons, List.tail_cons]
  rw [listJoin_listSplit]
  simp only [Prod.mk.injEq]
  constructor
  · trivial
  · have hdata : (function_name ++ "/" ++ job_name ++ ".json").data =
        function_name.data ++ ('/' :: (job_name.data ++ jsonDotSfx)) := by
      have hslash : "/".data = ['/'] := rfl
      simp [string_data_append, jsonDotSfx, hslash]
    rw [← hdata]

/-- Witness for C8_amended at concrete inputs. -/
theorem C8_amended_witness :
    ('/' ∉ "b1".data) ∧
    containsSeq gsScheme
      ("b1".data ++ ('/' :: ("myfn".data ++ ('/' :: ("job".data ++ jsonDotSfx))))) = false ∧
    extract_params_target "b1" "job" "myfn" = ("b1", "myfn/job.json") :=
  ⟨by decide, by decide, C8_amended "b1" "myfn" "job" (by decide) (by decide)⟩

/-! ### Claim C3 -/

/-- If some `pyStartswith` call succeeded, its receiver was a string. -/
theorem pyStartswith_ok_str (st : Json) (pre : String) (b : Bool)
    (h : pyStartswith st pre = Except.ok b) : ∃ s : String, st = Json.str s := by
  cases st <;> simp [pyStartswith] at h ⊢

/-- A successful pass through `main`'s `try:` block always returns a string:
the `status_or_job_id.startswith('aef-')` logging test would have raised on any
non-string value. -/
theorem main_try_ok_str (env : Env) (req : Json) (v : Json)
    (h : main_try env req = Except.ok v) : ∃ s : String, v = Json.str s := by
  simp only [main_try] at h
  repeat' split at h
  all_goals try exact Except.noConfusion h
  all_goals injection h with hv
  all_goals subst hv
  all_goals rename_i heq
  all_goals exact pyStartswith_ok_str _ _ _ heq

/-- Claim C3 (confirmed): for every environment and request, the handler
returns either a success *string*, or — whenever the `try:` body raises `e` —
the structured error object `{error: e.__class__.__name__, message: repr(e)}`;
no exception escapes. -/
theorem C3_handler_total (env : Env) (req : Json) :
    (∃ s : String, main_handler env req = HandlerResult.success (Json.str s)) ∨
    (∃ e : PyError, main_try env req = Except.error e ∧
      main_handler env req = HandlerResult.errObj e.name (pyExcRepr e)) := by
  cases h : main_try env req with
  | error e =>
    right
    exact ⟨e, rfl, by simp [main_handler, h]⟩
  | ok v =>
    left
    obtain ⟨s, rfl⟩ := main_try_ok_str env req v h
    exact ⟨s, by simp [main_handler, h]⟩

/-! ### Claims C5 and C6: payload shape -/

theorem string_eq_empty_iff (c : String) : c = "" ↔ c.data = [] := by
  cases c with
  | mk d =>
    constructor
    · intro h
      rw [h]
    · intro h
      show String.mk d = String.mk []
      rw [show d = [] from h]

/-- `peripherals_config` is present in the payload exactly when the cluster
parameter is truthy. -/
theorem batch_payload_peripherals (g1 g2 g3 g4 g5 g6 g7 g8 props g10 : Json) :
    (jsonLookup2 (batch_payload g1 g2 g3 g4 g5 g6 g7 g8 props g10)
      "environment_config" "peripherals_config").isSome = pyTruthy g4 := by
  cases hcl : pyTruthy g4 <;>
    simp +decide [batch_payload, jsonLookup2, jsonLookup, List.lookup, hcl]

/-- No `peripherals_config` entry when the cluster parameter is falsy. -/
theorem batch_payload_peripherals_none (g1 g2 g3 g4 g5 g6 g7 g8 props g10 : Json)
    (h : pyTruthy g4 = false) :
    jsonLookup2 (batch_payload g1 g2 g3 g4 g5 g6 g7 g8 props g10)
      "environment_config" "peripherals_config" = none := by
  simp +decide [batch_payload, jsonLookup2, jsonLookup, List.lookup, h]

/-- The `dataproc_cluster` path inside `peripherals_config`. -/
theorem batch_payload_cluster_path (g1 g2 g3 g4 g5 g6 g7 g8 props g10 : Json)
    (h : pyTruthy g4 = true) :
    jsonLookup4 (batch_payload g1 g2 g3 g4 g5 g6 g7 g8 props g10)
      "environment_config" "peripherals_config" "spark_history_server_config"
      "dataproc_cluster" =
      some (Json.str ("projects/" ++ pyStr g1 ++ "/regions/" ++ pyStr g2
        ++ "/clusters/" ++ pyStr g4)) := by
  simp +decide [batch_payload, jsonLookup4, jsonLookup2, jsonLookup, List.lookup, h]

/-- The `runtime_config.properties` slot of the payload. -/
theorem batch_payload_props (g1 g2 g3 g4 g5 g6 g7 g8 props g10 : Json) :
    jsonLookup2 (batch_payload g1 g2 g3 g4 g5 g6 g7 g8 props g10)
      "runtime_config" "properties" = some props := by
  simp +decide [batch_payload, jsonLookup2, jsonLookup, List.lookup]

/-- Claim C5 (confirmed): in every payload built from a parameter dict,
`environment_config` carries a `peripherals_config` entry iff the
`spark_history_server_cluster` parameter is a non-empty string (absent
parameter: no entry), and when present its `dataproc_cluster` value is
`projects/<project_id>/regions/<region>/clusters/<cluster>`. -/
theorem C5_peripherals_iff (kvs : List (String × Json)) (p : Json)
    (hp : create_batch_params (Json.obj kvs) = Except.ok p) :
    (∀ c : String, List.lookup "spark_history_server_cluster" kvs = some (Json.str c) →
      ((jsonLookup2 p "environment_config" "peripherals_config").isSome = true ↔ c ≠ "")) ∧
    (List.lookup "spark_history_server_cluster" kvs = none →
      jsonLookup2 p "environment_config" "peripherals_config" = none) ∧
    (∀ (c pid reg : String),
      List.lookup "spark_history_server_cluster" kvs = some (Json.str c) →
      List.lookup "dataproc_serverless_project_id" kvs = some (Json.str pid) →
      List.lookup "dataproc_serverless_region" kvs = some (Json.str reg) →
      c ≠ "" →
      jsonLookup4 p "environment_config" "peripherals_config" "spark_history_server_config"
        "dataproc_cluster" =
        some (Json.str ("projects/" ++ pid ++ "/regions/" ++ reg ++ "/clusters/" ++ c))) := by
  simp only [create_batch_params, dictGet] at hp
  split at hp
  · exact Except.noConfusion hp
  · injection hp with hpv
    subst hpv
    refine ⟨?_, ?_, ?_⟩
    · intro c hc
      rw [hc]
      simp only [Option.getD_some]
      rw [batch_payload_peripherals]
      show (!c.data.isEmpty) = true ↔ c ≠ ""
      rcases hd : c.data with _ | ⟨a, l⟩
      · simp [List.isEmpty, string_eq_empty_iff, hd]
      · simp [List.isEmpty, string_eq_empty_iff, hd]
    · intro hc
      rw [hc]
      simp only [Option.getD_none]
      exact batch_payload_peripherals_none _ _ _ _ _ _ _ _ _ _ rfl
    · intro c pid reg hc hpid hreg hne
      rw [hc, hpid, hreg]
      simp only [Option.getD_some]
      have htr : pyTruthy (Json.str c) = true := by
        show (!c.data.isEmpty) = true
        rcases hd : c.data with _ | ⟨a, l⟩
        · exact absurd ((string_eq_empty_iff c).mpr hd) hne
        · simp [List.isEmpty]
      rw [batch_payload_cluster_path _ _ _ _ _ _ _ _ _ _ htr]
      rfl

/-- Claim C6 (confirmed): when the `spark_app_properties` parameter arrives as a
JSON-encoded string that parses to `v`, the payload's
`runtime_config.properties` field holds the parsed value `v`, not the raw
string. -/
theorem C6_props_parsed (kvs : List (String × Json)) (s : String) (v p : Json)
    (hprops : List.lookup "spark_app_properties" kvs = some (Json.str s))
    (hparse : json_loads s = Except.ok v)
    (hp : create_batch_params (Json.obj kvs) = Except.ok p) :
    jsonLookup2 p "runtime_config" "properties" = some v := by
  simp only [create_batch_params, dictGet] at hp
  rw [hprops] at hp
  simp only [Option.getD_some] at hp
  rw [hparse] at hp
  injection hp with hpv
  subst hpv
  exact batch_payload_props _ _ _ _ _ _ _ _ _ _

/-! ### Claim C7, amended -/

/-- Claim C7 as amended (the counterexample forces "present" to become
"present and truthy"): for every request whose `job_id` is truthy (non-empty,
non-null), dispatch delegates to status lookup, and on a remote HTTP 200
response whose JSON body has a `state` field, the returned value is exactly
that `state` value. -/
theorem C7_amended (env : Env) (jid wn jn qv wp : Json)
    (ekvs bkvs : List (String × Json)) (st : Json)
    (htruthy : pyTruthy jid = true)
    (hstatus : env.getResponse.status = 200)
    (hbody : env.getResponse.body = Json.obj bkvs)
    (hstate : List.lookup "state" bkvs = some st) :
    execute_job_or_get_status env jid wn jn qv wp (Json.obj ekvs) =
      get_job_status env jid (Json.obj ekvs) ∧
    get_job_status env jid (Json.obj ekvs) = Except.ok st := by
  constructor
  · unfold execute_job_or_get_status
    rw [htruthy]
    simp
  · unfold get_job_status
    simp only [dictGet]
    rw [if_pos (by simp [hstatus])]
    simp [hbody, dictGet, hstate]

/-- Witness for C7_amended at concrete inputs. -/
theorem C7_amended_witness :
    pyTruthy (Json.str "aef-1") = true ∧
    execute_job_or_get_status ⟨Json.null, (fun _ _ => BlobFetch.notFound), 0,
        ⟨500, "", Json.null⟩, ⟨200, "", Json.obj [("state", Json.str "RUNNING")]⟩⟩
      (Json.str "aef-1") Json.null Json.null Json.null Json.null (Json.obj []) =
      get_job_status ⟨Json.null, (fun _ _ => BlobFetch.notFound), 0,
        ⟨500, "", Json.null⟩, ⟨200, "", Json.obj [("state", Json.str "RUNNING")]⟩⟩
        (Json.str "aef-1") (Json.obj []) ∧
    get_job_status ⟨Json.null, (fun _ _ => BlobFetch.notFound), 0,
        ⟨500, "", Json.null⟩, ⟨200, "", Json.obj [("state", Json.str "RUNNING")]⟩⟩
      (Json.str "aef-1") (Json.obj []) = Except.ok (Json.str "RUNNING") := by
  have h := C7_amended ⟨Json.null, (fun _ _ => BlobFetch.notFound), 0,
      ⟨500, "", Json.null⟩, ⟨200, "", Json.obj [("state", Json.str "RUNNING")]⟩⟩
    (Json.str "aef-1") Json.null Json.null Json.null Json.null []
    [("state", Json.str "RUNNING")] (Json.str "RUNNING") rfl rfl rfl rfl
  exact ⟨rfl, h.1, h.2⟩

/-! ### Claim C2, amended -/

/-- Claim C2 as amended (the counterexample forces "dedicated error with body"
to become "generic `Exception` without body"): every non-200 REST response makes
the operation fail with a plain `Exception` whose message contains the HTTP
status code (but not the response body, which is only logged), and every such
error propagates through the top-level handler into the structured error
response. -/
theorem C2_amended (env : Env) (wn jn qv wp jid p : Json)
    (ekvs : List (String × Json))
    (hcp : create_batch_params (Json.obj ekvs) = Except.ok p)
    (hpost : env.postResponse.status ≠ 200)
    (hget : env.getResponse.status ≠ 200) :
    create_batch_job env wn jn qv wp (Json.obj ekvs) =
      Except.error ⟨"Exception", createFailMsg env.postResponse.status⟩ ∧
    get_job_status env jid (Json.obj ekvs) =
      Except.error ⟨"Exception", getFailMsg env.getResponse.status⟩ ∧
    containsSeq (toString env.postResponse.status).data
      (createFailMsg env.postResponse.status).data = true ∧
    containsSeq (toString env.getResponse.status).data
      (getFailMsg env.getResponse.status).data = true ∧
    (∀ (req : Json) (e : PyError), main_try env req = Except.error e →
      main_handler env req = HandlerResult.errObj e.name (pyExcRepr e)) := by
  refine ⟨?_, ?_, ?_, ?_, ?_⟩
  · unfold create_batch_job
    rw [hcp]
    rw [if_neg (by simp [hpost])]
  · unfold get_job_status
    simp only [dictGet]
    rw [if_neg (by simp [hget])]
  · rw [show (createFailMsg env.postResponse.status).data =
        ("Dataproc API CREATE request failed. Status code:").data
          ++ (toString env.postResponse.status).data from string_data_append _ _]
    exact containsSeq_append_self _ _
  · rw [show (getFailMsg env.getResponse.status).data =
        ("Dataproc API GET request failed. Status code:").data
          ++ (toString env.getResponse.status).data from string_data_append _ _]
    exact containsSeq_append_self _ _
  · intro req e h
    simp [main_handler, h]

/-- Witness for C2_amended at concrete inputs. -/
theorem C2_amended_witness :
    create_batch_params (Json.obj []) =
      Except.ok (batch_payload Json.null Json.null Json.null Json.null Json.null Json.null
        Json.null Json.null Json.null Json.null) ∧
    (404 : Nat) ≠ 200 ∧ (500 : Nat) ≠ 200 ∧
    create_batch_job ⟨Json.null, (fun _ _ => BlobFetch.notFound), 0,
        ⟨404, "nf", Json.null⟩, ⟨500, "err", Json.null⟩⟩
      Json.null Json.null Json.null Json.null (Json.obj []) =
      Except.error ⟨"Exception", createFailMsg 404⟩ ∧
    get_job_status ⟨Json.null, (fun _ _ => BlobFetch.notFound), 0,
        ⟨404, "nf", Json.null⟩, ⟨500, "err", Json.null⟩⟩
      Json.null (Json.obj []) =
      Except.error ⟨"Exception", getFailMsg 500⟩ ∧
    containsSeq (toString (404 : Nat)).data (createFailMsg 404).data = true := by
  have h := C2_amended ⟨Json.null, (fun _ _ => BlobFetch.notFound), 0,
      ⟨404, "nf", Json.null⟩, ⟨500, "err", Json.null⟩⟩
    Json.null Json.null Json.null Json.null Json.null
    (batch_payload Json.null Json.null Json.null Json.null Json.null Json.null
      Json.null Json.null Json.null Json.null) []
    rfl (by decide) (by decide)
  exact ⟨rfl, by decide, by decide, h.1, h.2.1, h.2.2.1⟩

/-! ### Claim C4, amended -/

/-- Claim C4 as amended (the counterexample forces "unix-seconds timestamp" to
become "timestamp rounded to the nearest second"): every successful creation
call returns "aef-" ++ the call-time timestamp rounded to the nearest second
(ties to even), which matches the pattern aef-<digits>; two creation calls
whose timestamps round to the same second return identical, colliding ids —
but two calls inside the same wall-clock second may round apart. -/
theorem C4_amended (env env2 : Env) (wn jn qv wp ex p : Json)
    (hcp : create_batch_params ex = Except.ok p)
    (h200 : env.postResponse.status = 200)
    (h200b : env2.postResponse.status = 200)
    (hsec : pyTimestamp env.nowMs = pyTimestamp env2.nowMs) :
    create_batch_job env wn jn qv wp ex = Except.ok (Json.str (batchIdOf env.nowMs)) ∧
    batchIdOf env.nowMs = "aef-" ++ toString (pyTimestamp env.nowMs) ∧
    allDigits (toString (pyTimestamp env.nowMs)) = true ∧
    create_batch_job env2 wn jn qv wp ex = create_batch_job env wn jn qv wp ex := by
  have hc1 : create_batch_job env wn jn qv wp ex = Except.ok (Json.str (batchIdOf env.nowMs)) := by
    unfold create_batch_job
    rw [hcp]
    rw [if_pos (by simp [h200])]
  have hc2 : create_batch_job env2 wn jn qv wp ex =
      Except.ok (Json.str (batchIdOf env2.nowMs)) := by
    unfold create_batch_job
    rw [hcp]
    rw [if_pos (by simp [h200b])]
  refine ⟨hc1, rfl, allDigits_toString _, ?_⟩
  rw [hc1, hc2, show batchIdOf env2.nowMs = batchIdOf env.nowMs from by
    unfold batchIdOf; rw [hsec]]

/-- Witness for C4_amended: calls at 10.4s and 9.7s round to the same second 10
and collide. -/
theorem C4_amended_witness :
    create_batch_params (Json.obj []) =
      Except.ok (batch_payload Json.null Json.null Json.null Json.null Json.null Json.null
        Json.null Json.null Json.null Json.null) ∧
    pyTimestamp 10400 = pyTimestamp 9700 ∧
    create_batch_job ⟨Json.null, (fun _ _ => BlobFetch.notFound), 10400,
        ⟨200, "", Json.null⟩, ⟨200, "", Json.null⟩⟩
      Json.null Json.null Json.null Json.null (Json.obj []) =
      Except.ok (Json.str (batchIdOf 10400)) ∧
    allDigits (toString (pyTimestamp 10400)) = true ∧
    create_batch_job ⟨Json.null, (fun _ _ => BlobFetch.notFound), 9700,
        ⟨200, "", Json.null⟩, ⟨200, "", Json.null⟩⟩
      Json.null Json.null Json.null Json.null (Json.obj []) =
      create_batch_job ⟨Json.null, (fun _ _ => BlobFetch.notFound), 10400,
        ⟨200, "", Json.null⟩, ⟨200, "", Json.null⟩⟩
      Json.null Json.null Json.null Json.null (Json.obj []) := by
  have h := C4_amended
    ⟨Json.null, (fun _ _ => BlobFetch.notFound), 10400, ⟨200, "", Json.null⟩, ⟨200, "", Json.null⟩⟩
    ⟨Json.null, (fun _ _ => BlobFetch.notFound), 9700, ⟨200, "", Json.null⟩, ⟨200, "", Json.null⟩⟩
    Json.null Json.null Json.null Json.null (Json.obj [])
    (batch_payload Json.null Json.null Json.null Json.null Json.null Json.null
      Json.null Json.null Json.null Json.null)
    rfl rfl rfl rfl
  exact ⟨rfl, rfl, h.1, h.2.2.1, h.2.2.2⟩

/-- Witness for C5_peripherals_iff at a concrete parameter dict. -/
theorem C5_peripherals_iff_witness :
    create_batch_params (Json.obj [("spark_history_server_cluster", Json.str "hist"),
        ("dataproc_serverless_project_id", Json.str "pid"),
        ("dataproc_serverless_region", Json.str "reg")]) =
      Except.ok (batch_payload (Json.str "pid") (Json.str "reg") Json.null (Json.str "hist")
        Json.null Json.null Json.null Json.null Json.null Json.null) ∧
    (jsonLookup2 (batch_payload (Json.str "pid") (Json.str "reg") Json.null (Json.str "hist")
        Json.null Json.null Json.null Json.null Json.null Json.null)
      "environment_config" "peripherals_config").isSome = true ∧
    jsonLookup4 (batch_payload (Json.str "pid") (Json.str "reg") Json.null (Json.str "hist")
        Json.null Json.null Json.null Json.null Json.null Json.null)
      "environment_config" "peripherals_config" "spark_history_server_config"
      "dataproc_cluster" = some (Json.str "projects/pid/regions/reg/clusters/hist") := by
  have h := C5_peripherals_iff
    [("spark_history_server_cluster", Json.str "hist"),
     ("dataproc_serverless_project_id", Json.str "pid"),
     ("dataproc_serverless_region", Json.str "reg")]
    (batch_payload (Json.str "pid") (Json.str "reg") Json.null (Json.str "hist")
      Json.null Json.null Json.null Json.null Json.null Json.null) rfl
  exact ⟨rfl, (h.1 "hist" rfl).mpr (by decide), h.2.2 "hist" "pid" "reg" rfl rfl rfl (by decide)⟩

/-- Witness for C6_props_parsed: the JSON string from the spec's test matrix. -/
theorem C6_props_parsed_witness :
    List.lookup "spark_app_properties"
      [("spark_app_properties", Json.str "\x7b\"k\": \"v\"\x7d")] =
      some (Json.str "\x7b\"k\": \"v\"\x7d") ∧
    json_loads "\x7b\"k\": \"v\"\x7d" = Except.ok (Json.obj [("k", Json.str "v")]) ∧
    jsonLookup2 (batch_payload Json.null Json.null Json.null Json.null Json.null Json.null
        Json.null Json.null (Json.obj [("k", Json.str "v")]) Json.null)
      "runtime_config" "properties" = some (Json.obj [("k", Json.str "v")]) := by
  refine ⟨rfl, rfl, ?_⟩
  exact C6_props_parsed [("spark_app_properties", Json.str "\x7b\"k\": \"v\"\x7d")]
    "\x7b\"k\": \"v\"\x7d" (Json.obj [("k", Json.str "v")])
    (batch_payload Json.null Json.null Json.null Json.null Json.null Json.null
      Json.null Json.null (Json.obj [("k", Json.str "v")]) Json.null)
    rfl rfl rfl
